import Mathlib

/-!
Verification development for the excel-report-maker repository
(src/excel_report_maker/__init__.py).  The Python class
ExcelReportGenerator is shallowly embedded: a workbook is a list of
sheets, a sheet is a list of cell writes plus the bookkeeping the
underlying spreadsheet library maintains (current row, tables, number
formats, images, column widths), and each method of the class becomes a
Lean function on this state.  Cell values carry Python scalars (None,
int, str, bool) so that Python truthiness and str() are modelled
exactly.  Printing to stdout is modelled as an explicit log; exceptions
raised by caller-supplied callbacks are modelled with Except.
-/

/-- Scalar cell values as they occur in the Python program: None, an
integer, a string, or a boolean. -/
inductive Value where
  | vNone : Value
  | vInt : Int → Value
  | vStr : String → Value
  | vBool : Bool → Value
deriving DecidableEq, Repr

/-- Python str() on the modelled scalars. -/
def pyStr : Value → String
  | Value.vNone => "None"
  | Value.vInt i => toString i
  | Value.vStr s => s
  | Value.vBool true => "True"
  | Value.vBool false => "False"

/-- Python truthiness on the modelled scalars: None, 0, the empty
string and False are falsy. -/
def truthy : Value → Bool
  | Value.vNone => false
  | Value.vInt i => decide (i ≠ 0)
  | Value.vStr s => decide (s ≠ "")
  | Value.vBool b => b

/-- Test whether the second character list is a prefix of the first
argument list. -/
def startsWithChars : List Char → List Char → Bool
  | [], _ => true
  | _ :: _, [] => false
  | a :: as, b :: bs => a == b && startsWithChars as bs

/-- Test whether the pattern occurs as a contiguous run inside the
character list. -/
def containsChars (pat : List Char) : List Char → Bool
  | [] => startsWithChars pat []
  | b :: bs => startsWithChars pat (b :: bs) || containsChars pat bs

/-- Python substring containment, case sensitive: pat in s. -/
def strContains (s pat : String) : Bool :=
  containsChars pat.toList s.toList

/-- Digit loop of get_column_letter, structurally recursive on a fuel
argument that bounds the number of bijective base-26 digits. -/
def colLetterAux : Nat → Nat → String
  | 0, _ => ""
  | _ + 1, 0 => ""
  | fuel + 1, m + 1 => colLetterAux fuel (m / 26) ++ String.singleton (Char.ofNat (65 + m % 26))

/-- openpyxl get_column_letter: bijective base-26 column letters, with
column 1 = A, 26 = Z, 27 = AA.  The index itself bounds the digit
count, so it doubles as fuel. -/
def get_column_letter (n : Nat) : String := colLetterAux n n

/-- Pandas DataFrame as used by the program: an ordered list of column
names and an ordered list of rows of scalar values. -/
structure DF where
  cols : List String
  rows : List (List Value)
deriving DecidableEq, Repr

/-- dataframe_to_rows with index=False, header=True: the header row of
column names followed by the data rows. -/
def dataframe_to_rows (df : DF) : List (List Value) :=
  (df.cols.map Value.vStr) :: df.rows

/-- Table object registered on a worksheet: display name and cell
range reference. -/
structure XTable where
  displayName : String
  ref : String
deriving DecidableEq, Repr

/-- Worksheet state: the name, all cell writes (most recent first), the
current-row marker the library keeps for append, registered tables,
number-format assignments, image anchors, and column widths (most
recent first). -/
structure Sheet where
  name : String
  cells : List ((Nat × Nat) × Value)
  currentRow : Nat
  tables : List XTable
  numberFormats : List ((Nat × Nat) × String)
  images : List String
  colWidths : List (Nat × Nat)
deriving DecidableEq, Repr

/-- Fresh worksheet created by wb.create_sheet. -/
def newSheet (title : String) : Sheet :=
  { name := title, cells := [], currentRow := 0, tables := [],
    numberFormats := [], images := [], colWidths := [] }

/-- ws.cell(row, column, value): records the write and, as openpyxl
does when a new cell is added, advances the current-row marker. -/
def setCell (ws : Sheet) (r c : Nat) (v : Value) : Sheet :=
  { ws with cells := ((r, c), v) :: ws.cells, currentRow := max r ws.currentRow }

/-- Value stored at a coordinate; an unwritten cell reads as None. -/
def getCell (ws : Sheet) (r c : Nat) : Value :=
  match ws.cells.find? (fun p => p.1 == (r, c)) with
  | some p => p.2
  | none => Value.vNone

/-- Cell writes performed by ws.append for one row: the enumerated
values go to columns index + 1 of row r. -/
def appendRowAux (r : Nat) : List (Nat × Value) → Sheet → Sheet
  | [], w => w
  | p :: rest, w => appendRowAux r rest { w with cells := ((r, p.1 + 1), p.2) :: w.cells }

/-- ws.append(row): writes the values on the row after the current-row
marker, in columns 1, 2, ..., and advances the marker. -/
def appendRow (ws : Sheet) (vs : List Value) : Sheet :=
  let r := ws.currentRow + 1
  { appendRowAux r vs.enum ws with currentRow := r }

/-- ws.cell(row, column).number_format = fmt. -/
def setNumberFormat (ws : Sheet) (r c : Nat) (fmt : String) : Sheet :=
  { ws with numberFormats := ((r, c), fmt) :: ws.numberFormats }

/-- Inner percentage-format loop of append_df_as_table: for each row
index in the given list, set the number format 0% on the cell at the
given column. -/
def formatRateRows (col_idx : Nat) : List Nat → Sheet → Sheet
  | [], ws => ws
  | row_idx :: rest, ws =>
      formatRateRows col_idx rest (setNumberFormat ws row_idx col_idx "0%")

/-- Outer percentage-format loop of append_df_as_table: walk the
enumerated columns and, for each column whose name is in rate_cols,
format the data rows initial_data_row + 1 .. end_row. -/
def formatRateCols (rate_cols : List String) (initial_data_row end_row : Nat) :
    List (Nat × String) → Sheet → Sheet
  | [], ws => ws
  | (col_idx, col_name) :: rest, ws =>
      let ws2 := if rate_cols.contains col_name then
          formatRateRows col_idx
            (List.range' (initial_data_row + 1) (end_row + 1 - (initial_data_row + 1))) ws
        else ws
      formatRateCols rate_cols initial_data_row end_row rest ws2

/-- enumerate(xs, start=1). -/
def enumerate1 {α : Type} (l : List α) : List (Nat × α) :=
  l.enum.map (fun p => (p.1 + 1, p.2))

/-- append_df_as_table(ws, df, table_title, start_row): writes the
title cell, appends the header and data rows, registers a table named
with the running counter over the range header..last data row, applies
the 0% format to data cells of columns whose name contains Rate, and
returns the updated sheet, end_row + 2, and the incremented counter. -/
def append_df_as_table (counter : Nat) (ws : Sheet) (df : DF)
    (table_title : String) (start_row : Nat) : Sheet × Nat × Nat :=
  let ws1 := setCell ws start_row 1 (Value.vStr table_title)
  let initial_data_row := start_row + 1
  let ws2 := (dataframe_to_rows df).foldl appendRow ws1
  let rows_appended := (dataframe_to_rows df).length
  let end_row := initial_data_row + rows_appended - 1
  let start_col := 1
  let end_col := df.cols.length
  let table_ref := get_column_letter start_col ++ toString initial_data_row ++ ":"
      ++ get_column_letter end_col ++ toString end_row
  let ws3 := { ws2 with tables :=
      ws2.tables ++ [{ displayName := "Table" ++ toString counter, ref := table_ref }] }
  let rate_cols := df.cols.filter (fun col => strContains col "Rate")
  let ws4 := formatRateCols rate_cols initial_data_row end_row (enumerate1 df.cols) ws3
  (ws4, end_row + 2, counter + 1)

/-- Minimum of a list of naturals with a default for the empty list,
mirroring how openpyxl reports dimensions of an empty sheet as 1. -/
def natsMin (dflt : Nat) : List Nat → Nat
  | [] => dflt
  | a :: as => as.foldl min a

/-- Maximum of a list of naturals with a default for the empty list. -/
def natsMax (dflt : Nat) : List Nat → Nat
  | [] => dflt
  | a :: as => as.foldl max a

/-- ws.min_row. -/
def sheetMinRow (ws : Sheet) : Nat := natsMin 1 (ws.cells.map (fun p => p.1.1))

/-- ws.max_row. -/
def sheetMaxRow (ws : Sheet) : Nat := natsMax 1 (ws.cells.map (fun p => p.1.1))

/-- ws.min_column. -/
def sheetMinCol (ws : Sheet) : Nat := natsMin 1 (ws.cells.map (fun p => p.1.2))

/-- ws.max_column. -/
def sheetMaxCol (ws : Sheet) : Nat := natsMax 1 (ws.cells.map (fun p => p.1.2))

/-- Row indices of the bounding box, as iterated by ws.columns. -/
def sheetRowRange (ws : Sheet) : List Nat :=
  List.range' (sheetMinRow ws) (sheetMaxRow ws + 1 - sheetMinRow ws)

/-- Column indices of the bounding box, as iterated by ws.columns. -/
def sheetColRange (ws : Sheet) : List Nat :=
  List.range' (sheetMinCol ws) (sheetMaxCol ws + 1 - sheetMinCol ws)

/-- Contribution of one cell value to the auto-width maximum:
len(str(cell.value)) if cell.value else 0. -/
def cellLen (v : Value) : Nat :=
  if truthy v then (pyStr v).length else 0

/-- max((len(str(cell.value)) if cell.value else 0 for cell in col),
default=0) over one column of the bounding box. -/
def colMaxLength (ws : Sheet) (c : Nat) : Nat :=
  ((sheetRowRange ws).map (fun r => cellLen (getCell ws r c))).foldl max 0

/-- ws.column_dimensions[letter].width = w. -/
def setColWidth (ws : Sheet) (c w : Nat) : Sheet :=
  { ws with colWidths := (c, w) :: ws.colWidths }

/-- Width recorded for a column, if any. -/
def getColWidth (ws : Sheet) (c : Nat) : Option Nat :=
  (ws.colWidths.find? (fun p => p.1 == c)).map Prod.snd

/-- Auto-width loop of create_results_sheets: width = max_length + 2,
uncapped. -/
def autoWidthLoop : List Nat → Sheet → Sheet
  | [], ws => ws
  | c :: rest, ws =>
      let max_length := colMaxLength ws c
      let adjusted_width := max_length + 2
      autoWidthLoop rest (setColWidth ws c adjusted_width)

/-- Auto-width loop of create_results_sheets_with_images:
width = min(max_length + 2, 50). -/
def autoWidthCapLoop : List Nat → Sheet → Sheet
  | [], ws => ws
  | c :: rest, ws =>
      let max_length := colMaxLength ws c
      let adjusted_width := min (max_length + 2) 50
      autoWidthCapLoop rest (setColWidth ws c adjusted_width)

/-- Generator state: constructor arguments, the workbook sheets in
order, the running table counter, and the lines printed to stdout. -/
structure ExcelReportGenerator where
  results : List (String × List (String × DF))
  intro_text : List String
  sheets : List Sheet
  global_table_counter : Nat
  log : List String
deriving DecidableEq, Repr

/-- ExcelReportGenerator(results, intro_text): the fresh workbook has
its default blank sheet deleted immediately, and the counter is 1. -/
def initGenerator (results : List (String × List (String × DF)))
    (intro_text : List String) : ExcelReportGenerator :=
  { results := results, intro_text := intro_text, sheets := [],
    global_table_counter := 1, log := [] }

/-- Loop of create_introduction_sheet over the intro lines. -/
def introLinesLoop : List String → Sheet → Sheet
  | [], ws => ws
  | line :: rest, ws => introLinesLoop rest (appendRow ws [Value.vStr line])

/-- create_introduction_sheet: creates the sheet at position 0, writes
the bold title row, one row per intro line, and fixes column A width
to 100. -/
def create_introduction_sheet (g : ExcelReportGenerator) : ExcelReportGenerator :=
  let ws := newSheet "Introduction"
  let ws := appendRow ws [Value.vStr "Introduction"]
  let ws := introLinesLoop g.intro_text ws
  let ws := setColWidth ws 1 100
  { g with sheets := ws :: g.sheets }

/-- Per-sheet table loop of create_results_sheets: chains the next-row
and counter through successive append_df_as_table calls. -/
def placeTablesLoop : List (String × DF) → Sheet → Nat → Nat → Sheet × Nat
  | [], ws, _, counter => (ws, counter)
  | (table_title, df) :: rest, ws, current_row, counter =>
      let t := append_df_as_table counter ws df table_title current_row
      placeTablesLoop rest t.1 t.2.1 t.2.2

/-- Loop of create_results_sheets over the (sheet name, queries)
pairs: place all tables from row 1, then run the uncapped auto-width
pass over the columns of the bounding box. -/
def resultsSheetsLoop : List (String × List (String × DF)) →
    ExcelReportGenerator → ExcelReportGenerator
  | [], g => g
  | (sheet_name, queries_dict) :: rest, g =>
      let t := placeTablesLoop queries_dict (newSheet sheet_name) 1 g.global_table_counter
      let ws := autoWidthLoop (sheetColRange t.1) t.1
      resultsSheetsLoop rest
        { g with sheets := g.sheets ++ [ws], global_table_counter := t.2 }

/-- create_results_sheets. -/
def create_results_sheets (g : ExcelReportGenerator) : ExcelReportGenerator :=
  resultsSheetsLoop g.results g

/-- Matplotlib figure handed back by an image provider: either a
figure whose savefig succeeds, or one whose serialization raises with
the given message. -/
inductive Fig where
  | good : Nat → Fig
  | bad : String → Fig
deriving DecidableEq, Repr

/-- Result of an image provider callback before normalization: a bare
figure (or None), or a Python list of figures and Nones. -/
inductive FigResult where
  | single : Option Fig → FigResult
  | several : List (Option Fig) → FigResult

/-- if not isinstance(figures, list): figures = [figures]. -/
def normalizeFigures : FigResult → List (Option Fig)
  | FigResult.single f => [f]
  | FigResult.several fs => fs

/-- Caller-supplied image provider: takes the DataFrame and the table
title and either returns figures or raises. -/
def ImgFunc : Type := DF → String → Except String FigResult

/-- Column position argument of the image routines: a column letter
string or a 1-based integer index. -/
inductive ColRef where
  | letter : String → ColRef
  | idx : Nat → ColRef
deriving DecidableEq, Repr

/-- add_image_from_figure: when matplotlib is importable, serializes
the figure (propagating any exception it raises), anchors the image at
the resolved cell, and returns start_row + height / 15 + 2; when the
module is unavailable, warns and returns start_row + 1 without touching the
sheet. -/
def add_image_from_figure (matplotlib_available : Bool) (ws : Sheet) (fig : Fig)
    (start_row : Nat) (start_col : ColRef) (width height : Nat) :
    Except String (Sheet × Nat × List String) :=
  if matplotlib_available then
    match fig with
    | Fig.bad msg => Except.error msg
    | Fig.good _ =>
        let anchor_cell := match start_col with
          | ColRef.letter s => s ++ toString start_row
          | ColRef.idx n => get_column_letter n ++ toString start_row
        let ws2 := { ws with images := ws.images ++ [anchor_cell] }
        let rows_occupied := height / 15 + 2
        Except.ok (ws2, start_row + rows_occupied, [])
  else
    Except.ok (ws, start_row + 1,
      ["Warning: Image embedding requires matplotlib. Skipping image."])

/-- add_image_from_file: when the embedding capability is importable
and the file exists, anchors the image and returns
start_row + height / 15 + 2; when the file is missing or the import
fails, warns once and returns start_row + 1 without touching the
sheet. -/
def add_image_from_file (image_embedding_available : Bool) (file_exists : String → Bool)
    (ws : Sheet) (image_path : String) (start_row : Nat) (start_col : ColRef)
    (width height : Nat) : Sheet × Nat × List String :=
  if image_embedding_available then
    if file_exists image_path then
      let anchor_cell := match start_col with
        | ColRef.letter s => s ++ toString start_row
        | ColRef.idx n => get_column_letter n ++ toString start_row
      let ws2 := { ws with images := ws.images ++ [anchor_cell] }
      let rows_occupied := height / 15 + 2
      (ws2, start_row + rows_occupied, [])
    else
      (ws, start_row + 1, ["Warning: Image file not found: " ++ image_path])
  else
    (ws, start_row + 1, ["Warning: Image embedding not available. Skipping image."])

/-- Output of the figure-placement loop: the sheet, the cursor row,
warnings printed so far, and the exception escaping the loop, if
any (to be caught by the enclosing handler). -/
structure FigLoopOut where
  ws : Sheet
  current_row : Nat
  warnings : List String
  raised : Option String

/-- Figure loop inside create_results_sheets_with_images: place every
non-None figure at the cursor, advance the cursor past the image plus
one blank row; an exception escaping add_image_from_figure aborts the
rest of the loop with the state written so far kept. -/
def placeFigures (matplotlib_available : Bool) :
    List (Option Fig) → Sheet → Nat → FigLoopOut
  | [], ws, cur => { ws := ws, current_row := cur, warnings := [], raised := none }
  | none :: rest, ws, cur => placeFigures matplotlib_available rest ws cur
  | some fig :: rest, ws, cur =>
      match add_image_from_figure matplotlib_available ws fig cur (ColRef.letter "A") 600 400 with
      | Except.error e => { ws := ws, current_row := cur, warnings := [], raised := some e }
      | Except.ok (ws2, next, warns) =>
          let out := placeFigures matplotlib_available rest ws2 (next + 1)
          { out with warnings := warns ++ out.warnings }

/-- Warning printed by the per-table exception handler of
create_results_sheets_with_images. -/
def warnImagesFailed (sheet_name table_title err : String) : String :=
  "Warning: Failed to add images for " ++ sheet_name ++ "/" ++ table_title ++ ": " ++ err

/-- Guarded image block run after each table placement in
create_results_sheets_with_images: when a provider is registered for
the sheet, call it and place its figures, catching any exception from
the callback or from placement and downgrading it to a warning that
names the sheet and the title. -/
def tryAddImages (matplotlib_available : Bool)
    (image_functions : Option (List (String × ImgFunc))) (sheet_name table_title : String)
    (df : DF) (ws : Sheet) (current_row : Nat) : Sheet × Nat × List String :=
  match image_functions with
  | none => (ws, current_row, [])
  | some fns =>
      if fns.isEmpty then (ws, current_row, [])
      else
        match List.lookup sheet_name fns with
        | none => (ws, current_row, [])
        | some image_func =>
            match image_func df table_title with
            | Except.error e =>
                (ws, current_row, [warnImagesFailed sheet_name table_title e])
            | Except.ok figresult =>
                let figures := normalizeFigures figresult
                let out := placeFigures matplotlib_available figures ws current_row
                match out.raised with
                | some e =>
                    (out.ws, out.current_row,
                      out.warnings ++ [warnImagesFailed sheet_name table_title e])
                | none => (out.ws, out.current_row, out.warnings)

/-- Per-sheet loop of create_results_sheets_with_images: place each
table, then run the guarded image block, chaining cursor, counter and
log. -/
def placeTablesWithImagesLoop (matplotlib_available : Bool)
    (image_functions : Option (List (String × ImgFunc))) (sheet_name : String) :
    List (String × DF) → Sheet → Nat → Nat → List String → Sheet × Nat × List String
  | [], ws, _, counter, log => (ws, counter, log)
  | (table_title, df) :: rest, ws, current_row, counter, log =>
      let t := append_df_as_table counter ws df table_title current_row
      let r := tryAddImages matplotlib_available image_functions sheet_name table_title df
        t.1 t.2.1
      placeTablesWithImagesLoop matplotlib_available image_functions sheet_name rest
        r.1 r.2.1 t.2.2 (log ++ r.2.2)

/-- Loop of create_results_sheets_with_images over the (sheet name,
queries) pairs, ending each sheet with the capped auto-width pass. -/
def resultsSheetsWithImagesLoop (matplotlib_available : Bool)
    (image_functions : Option (List (String × ImgFunc))) :
    List (String × List (String × DF)) → ExcelReportGenerator → ExcelReportGenerator
  | [], g => g
  | (sheet_name, queries_dict) :: rest, g =>
      let t := placeTablesWithImagesLoop matplotlib_available image_functions sheet_name
        queries_dict (newSheet sheet_name) 1 g.global_table_counter []
      let ws := autoWidthCapLoop (sheetColRange t.1) t.1
      resultsSheetsWithImagesLoop matplotlib_available image_functions rest
        { g with
          sheets := g.sheets ++ [ws]
          global_table_counter := t.2.1
          log := g.log ++ t.2.2 }

/-- create_results_sheets_with_images. -/
def create_results_sheets_with_images (matplotlib_available : Bool)
    (g : ExcelReportGenerator) (image_functions : Option (List (String × ImgFunc))) :
    ExcelReportGenerator :=
  resultsSheetsWithImagesLoop matplotlib_available image_functions g.results g

/-- Python truthiness of the optional image_functions dictionary: None
and the empty dictionary are falsy. -/
def truthyDict {α : Type} : Option (List α) → Bool
  | some (_ :: _) => true
  | _ => false

/-- generate_workbook(output_path, image_functions=None): builds the
introduction sheet, then the result sheets (with images when
image_functions is truthy), saves, and prints the confirmation. -/
def generate_workbook (matplotlib_available : Bool) (g : ExcelReportGenerator)
    (output_path : String) (image_functions : Option (List (String × ImgFunc))) :
    ExcelReportGenerator :=
  let g1 := create_introduction_sheet g
  let g2 := if truthyDict image_functions then
      create_results_sheets_with_images matplotlib_available g1 image_functions
    else
      create_results_sheets g1
  { g2 with log := g2.log ++ ["Workbook successfully saved to " ++ output_path] }

/-- Display names of all tables of the document, in placement order:
sheets in workbook order, tables within a sheet in placement order. -/
def docTableNames (g : ExcelReportGenerator) : List String :=
  (g.sheets.map (fun s => s.tables.map XTable.displayName)).flatten

/-- Canonical display name assigned from a counter value. -/
def tableName (k : Nat) : String := "Table" ++ toString k

/-- Total number of tables across all data sources. -/
def totalTables (l : List (String × List (String × DF))) : Nat :=
  (l.map (fun p => p.2.length)).sum

/-- String of 80 characters, used as a long cell value in the
auto-width scenarios. -/
def longValue : String := String.mk (List.replicate 80 'x')

/-- Single-column table whose only value has length 80. -/
def dfLong : DF := { cols := ["Values"], rows := [[Value.vStr longValue]] }

/-- Generator holding the long-value table on sheet Analysis. -/
def genLong : ExcelReportGenerator :=
  initGenerator [("Analysis", [("T", dfLong)])] ["i"]

/-- Two-column table whose second column is named X and holds the
integer 0 in every data row. -/
def dfZeroData : DF :=
  { cols := ["A", "X"],
    rows := [[Value.vStr "a", Value.vInt 0], [Value.vStr "b", Value.vInt 0]] }

/-- Generator holding the all-zero-data table on sheet S. -/
def genZeroData : ExcelReportGenerator := initGenerator [("S", [("T", dfZeroData)])] []

/-- Variant of the all-zero table whose second column name is the
empty string, so every cell of column 2 is falsy. -/
def dfZeroFalsy : DF :=
  { cols := ["A", ""],
    rows := [[Value.vStr "a", Value.vInt 0], [Value.vStr "b", Value.vInt 0]] }

/-- Generator holding the all-falsy-column table on sheet S. -/
def genZeroFalsy : ExcelReportGenerator := initGenerator [("S", [("T", dfZeroFalsy)])] []

/-- Generator with one data source that has no tables at all, so its
sheet stays empty. -/
def genEmptySheet : ExcelReportGenerator := initGenerator [("E", [])] []

/-- Image provider callback that always raises. -/
def badProvider : ImgFunc := fun _ _ => Except.error "boom"

/-- Image provider callback that returns a figure whose serialization
raises during placement. -/
def badFigProvider : ImgFunc :=
  fun _ _ => Except.ok (FigResult.single (some (Fig.bad "save failed")))

/-- Small two-sheet input used in the provider-failure scenario. -/
def genTwoSheets : ExcelReportGenerator :=
  initGenerator
    [("Analysis", [("Category Data", dfZeroData), ("Sales Data", dfLong)]),
     ("Summary", [("Overview", dfLong)])] ["i"]

theorem setCell_name (ws : Sheet) (r c : Nat) (v : Value) :
    (setCell ws r c v).name = ws.name := rfl

theorem setCell_tables (ws : Sheet) (r c : Nat) (v : Value) :
    (setCell ws r c v).tables = ws.tables := rfl

theorem setCell_numberFormats (ws : Sheet) (r c : Nat) (v : Value) :
    (setCell ws r c v).numberFormats = ws.numberFormats := rfl

theorem setNumberFormat_name (ws : Sheet) (r c : Nat) (f : String) :
    (setNumberFormat ws r c f).name = ws.name := rfl

theorem setNumberFormat_tables (ws : Sheet) (r c : Nat) (f : String) :
    (setNumberFormat ws r c f).tables = ws.tables := rfl

theorem setNumberFormat_cells (ws : Sheet) (r c : Nat) (f : String) :
    (setNumberFormat ws r c f).cells = ws.cells := rfl

theorem appendRowAux_name (r : Nat) (l : List (Nat × Value)) (ws : Sheet) :
    (appendRowAux r l ws).name = ws.name := by
  induction l generalizing ws with
  | nil => rfl
  | cons p rest ih => simp [appendRowAux, ih]

theorem appendRowAux_tables (r : Nat) (l : List (Nat × Value)) (ws : Sheet) :
    (appendRowAux r l ws).tables = ws.tables := by
  induction l generalizing ws with
  | nil => rfl
  | cons p rest ih => simp [appendRowAux, ih]

theorem appendRowAux_numberFormats (r : Nat) (l : List (Nat × Value)) (ws : Sheet) :
    (appendRowAux r l ws).numberFormats = ws.numberFormats := by
  induction l generalizing ws with
  | nil => rfl
  | cons p rest ih => simp [appendRowAux, ih]

theorem appendRow_name (ws : Sheet) (vs : List Value) :
    (appendRow ws vs).name = ws.name := by
  simp [appendRow, appendRowAux_name]

theorem appendRow_tables (ws : Sheet) (vs : List Value) :
    (appendRow ws vs).tables = ws.tables := by
  simp [appendRow, appendRowAux_tables]

theorem appendRow_numberFormats (ws : Sheet) (vs : List Value) :
    (appendRow ws vs).numberFormats = ws.numberFormats := by
  simp [appendRow, appendRowAux_numberFormats]

theorem foldl_appendRow_name (rows : List (List Value)) (ws : Sheet) :
    (rows.foldl appendRow ws).name = ws.name := by
  induction rows generalizing ws with
  | nil => rfl
  | cons r rest ih => simp [List.foldl_cons, ih, appendRow_name]

theorem foldl_appendRow_tables (rows : List (List Value)) (ws : Sheet) :
    (rows.foldl appendRow ws).tables = ws.tables := by
  induction rows generalizing ws with
  | nil => rfl
  | cons r rest ih => simp [List.foldl_cons, ih, appendRow_tables]

theorem foldl_appendRow_numberFormats (rows : List (List Value)) (ws : Sheet) :
    (rows.foldl appendRow ws).numberFormats = ws.numberFormats := by
  induction rows generalizing ws with
  | nil => rfl
  | cons r rest ih => simp [List.foldl_cons, ih, appendRow_numberFormats]

theorem formatRateRows_name (c : Nat) (rows : List Nat) (ws : Sheet) :
    (formatRateRows c rows ws).name = ws.name := by
  induction rows generalizing ws with
  | nil => rfl
  | cons r rest ih => simp [formatRateRows, ih, setNumberFormat_name]

theorem formatRateRows_tables (c : Nat) (rows : List Nat) (ws : Sheet) :
    (formatRateRows c rows ws).tables = ws.tables := by
  induction rows generalizing ws with
  | nil => rfl
  | cons r rest ih => simp [formatRateRows, ih, setNumberFormat_tables]

theorem formatRateRows_cells (c : Nat) (rows : List Nat) (ws : Sheet) :
    (formatRateRows c rows ws).cells = ws.cells := by
  induction rows generalizing ws with
  | nil => rfl
  | cons r rest ih => simp [formatRateRows, ih, setNumberFormat_cells]

theorem mem_formatRateRows (c : Nat) (rows : List Nat) (ws : Sheet)
    (p : (Nat × Nat) × String) :
    p ∈ (formatRateRows c rows ws).numberFormats ↔
      (∃ r ∈ rows, p = ((r, c), "0%")) ∨ p ∈ ws.numberFormats := by
  induction rows generalizing ws with
  | nil => simp [formatRateRows]
  | cons r rest ih =>
      simp only [formatRateRows, ih, setNumberFormat, List.mem_cons]
      constructor
      · rintro (⟨r2, hr2, hp⟩ | hp | hp)
        · exact Or.inl ⟨r2, Or.inr hr2, hp⟩
        · exact Or.inl ⟨r, Or.inl rfl, hp⟩
        · exact Or.inr hp
      · rintro (⟨r2, hr2 | hr2, hp⟩ | hp)
        · subst hr2; exact Or.inr (Or.inl hp)
        · exact Or.inl ⟨r2, hr2, hp⟩
        · exact Or.inr (Or.inr hp)

theorem formatRateCols_name (rc : List String) (a b : Nat)
    (cols : List (Nat × String)) (ws : Sheet) :
    (formatRateCols rc a b cols ws).name = ws.name := by
  induction cols generalizing ws with
  | nil => rfl
  | cons q rest ih =>
      obtain ⟨ci, cn⟩ := q
      simp only [formatRateCols]
      split
      · rw [ih, formatRateRows_name]
      · rw [ih]

theorem formatRateCols_tables (rc : List String) (a b : Nat)
    (cols : List (Nat × String)) (ws : Sheet) :
    (formatRateCols rc a b cols ws).tables = ws.tables := by
  induction cols generalizing ws with
  | nil => rfl
  | cons q rest ih =>
      obtain ⟨ci, cn⟩ := q
      simp only [formatRateCols]
      split
      · rw [ih, formatRateRows_tables]
      · rw [ih]

theorem formatRateCols_cells (rc : List String) (a b : Nat)
    (cols : List (Nat × String)) (ws : Sheet) :
    (formatRateCols rc a b cols ws).cells = ws.cells := by
  induction cols generalizing ws with
  | nil => rfl
  | cons q rest ih =>
      obtain ⟨ci, cn⟩ := q
      simp only [formatRateCols]
      split
      · rw [ih, formatRateRows_cells]
      · rw [ih]

theorem mem_formatRateCols (rc : List String) (a b : Nat)
    (cols : List (Nat × String)) (ws : Sheet) (p : (Nat × Nat) × String) :
    p ∈ (formatRateCols rc a b cols ws).numberFormats ↔
      (∃ q ∈ cols, rc.contains q.2 = true ∧
        ∃ r ∈ List.range' (a + 1) (b + 1 - (a + 1)), p = ((r, q.1), "0%")) ∨
      p ∈ ws.numberFormats := by
  induction cols generalizing ws with
  | nil => simp [formatRateCols]
  | cons q rest ih =>
      obtain ⟨ci, cn⟩ := q
      simp only [formatRateCols]
      split
      · rename_i hrate
        rw [ih, mem_formatRateRows]
        simp only [List.mem_cons]
        constructor
        · rintro (⟨q2, hq2, hq2r, r, hr, hp⟩ | ⟨r, hr, hp⟩ | hp)
          · exact Or.inl ⟨q2, Or.inr hq2, hq2r, r, hr, hp⟩
          · exact Or.inl ⟨(ci, cn), Or.inl rfl, hrate, r, hr, hp⟩
          · exact Or.inr hp
        · rintro (⟨q2, hq2 | hq2, hq2r, r, hr, hp⟩ | hp)
          · subst hq2; exact Or.inr (Or.inl ⟨r, hr, hp⟩)
          · exact Or.inl ⟨q2, hq2, hq2r, r, hr, hp⟩
          · exact Or.inr (Or.inr hp)
      · rename_i hrate
        rw [ih]
        simp only [List.mem_cons]
        constructor
        · rintro (⟨q2, hq2, hq2r, r, hr, hp⟩ | hp)
          · exact Or.inl ⟨q2, Or.inr hq2, hq2r, r, hr, hp⟩
          · exact Or.inr hp
        · rintro (⟨q2, hq2 | hq2, hq2r, r, hr, hp⟩ | hp)
          · exact absurd (hq2 ▸ hq2r) (by simpa using hrate)
          · exact Or.inl ⟨q2, hq2, hq2r, r, hr, hp⟩
          · exact Or.inr hp

theorem append_df_as_table_name (counter : Nat) (ws : Sheet) (df : DF)
    (t : String) (r : Nat) :
    (append_df_as_table counter ws df t r).1.name = ws.name := by
  simp [append_df_as_table, formatRateCols_name, foldl_appendRow_name, setCell_name]

theorem append_df_as_table_counter (counter : Nat) (ws : Sheet) (df : DF)
    (t : String) (r : Nat) :
    (append_df_as_table counter ws df t r).2.2 = counter + 1 := by
  simp [append_df_as_table]

theorem append_df_as_table_next (counter : Nat) (ws : Sheet) (df : DF)
    (t : String) (r : Nat) :
    (append_df_as_table counter ws df t r).2.1 = r + df.rows.length + 3 := by
  simp [append_df_as_table, dataframe_to_rows]
  omega

theorem append_df_as_table_tables (counter : Nat) (ws : Sheet) (df : DF)
    (t : String) (r : Nat) :
    (append_df_as_table counter ws df t r).1.tables
      = ws.tables ++ [XTable.mk (tableName counter)
          (get_column_letter 1 ++ toString (r + 1) ++ ":"
            ++ get_column_letter df.cols.length ++ toString (r + 1 + df.rows.length))] := by
  have h : r + 1 + (dataframe_to_rows df).length - 1 = r + 1 + df.rows.length := by
    simp [dataframe_to_rows]
  simp [append_df_as_table, formatRateCols_tables, foldl_appendRow_tables,
    setCell_tables, tableName, h]

theorem append_df_as_table_tables_names (counter : Nat) (ws : Sheet) (df : DF)
    (t : String) (r : Nat) :
    ((append_df_as_table counter ws df t r).1.tables).map XTable.displayName
      = ws.tables.map XTable.displayName ++ [tableName counter] := by
  rw [append_df_as_table_tables]
  simp

theorem mem_enumerate1 {α : Type} (l : List α) (q : Nat × α) :
    q ∈ enumerate1 l ↔ ∃ i, ∃ hi : i < l.length, q = (i + 1, l.get ⟨i, hi⟩) := by
  constructor
  · intro h
    rcases List.mem_map.mp h with ⟨p, hp, hq⟩
    have h2 := List.mem_enum_iff_getElem?.mp hp
    rcases List.getElem?_eq_some_iff.mp h2 with ⟨hlt, hval⟩
    refine ⟨p.1, hlt, ?_⟩
    rw [← hq]
    simp [List.get_eq_getElem, hval]
  · rintro ⟨i, hi, rfl⟩
    refine List.mem_map.mpr ⟨(i, l.get ⟨i, hi⟩), ?_, rfl⟩
    exact List.mem_enum_iff_getElem?.mpr (by simp [List.get_eq_getElem])

theorem contains_filter_rate (name : String) (cols : List String) (h : name ∈ cols) :
    (cols.filter (fun c => strContains c "Rate")).contains name
      = strContains name "Rate" := by
  cases hr : strContains name "Rate" with
  | true => simp [List.contains, List.mem_filter, h, hr]
  | false => simp [List.contains, List.mem_filter, hr]

/-- C3: for every table with N data rows, append_df_as_table returns
end_row + 2 where end_row = start_row + 1 + (1 + N) - 1 (one header
row plus N data rows written from start_row + 1); a zero-row table
still registers a valid non-empty range (header row only) and returns
start_row + 3, strictly greater than start_row. -/
theorem C3_placeTable_returns (counter : Nat) (ws : Sheet) (df : DF)
    (title : String) (start_row : Nat) (h : df.cols ≠ []) :
    (append_df_as_table counter ws df title start_row).2.1
        = (start_row + 1 + (1 + df.rows.length) - 1) + 2 ∧
      (df.rows.length = 0 →
        (append_df_as_table counter ws df title start_row).2.1 = start_row + 3) ∧
      start_row < (append_df_as_table counter ws df title start_row).2.1 ∧
      (append_df_as_table counter ws df title start_row).1.tables.getLast?
        = some (XTable.mk (tableName counter)
            (get_column_letter 1 ++ toString (start_row + 1) ++ ":"
              ++ get_column_letter df.cols.length ++ toString (start_row + 1 + df.rows.length))) ∧
      start_row + 1 ≤ start_row + 1 + df.rows.length := by
  refine ⟨?_, ?_, ?_, ?_, by omega⟩
  · rw [append_df_as_table_next]; omega
  · intro h0; rw [append_df_as_table_next, h0]
  · rw [append_df_as_table_next]; omega
  · rw [append_df_as_table_tables]; exact List.getLast?_concat _

/-- Witness for C3 at a concrete zero-row single-column table. -/
theorem C3_placeTable_returns_witness :
    (DF.mk ["A"] []).cols ≠ [] ∧
    (append_df_as_table 1 (newSheet "S") (DF.mk ["A"] []) "T" 1).2.1 = 1 + 3 :=
  ⟨by decide, (C3_placeTable_returns 1 (newSheet "S") (DF.mk ["A"] []) "T" 1 (by decide)).2.1 rfl⟩

/-- C4: the number formats present after append_df_as_table are
exactly the old ones plus the format 0% on precisely the data cells
(rows start_row + 2 .. start_row + 1 + N, so never the title row
start_row and never the header row start_row + 1) of the columns of
this table whose own name contains the case-sensitive substring
Rate. -/
theorem C4_rate_format_exact (counter : Nat) (ws : Sheet) (df : DF)
    (title : String) (start_row : Nat) (p : (Nat × Nat) × String) :
    p ∈ ((append_df_as_table counter ws df title start_row).1).numberFormats ↔
      ((p.2 = "0%" ∧
        (∃ i, ∃ hi : i < df.cols.length,
          p.1.2 = i + 1 ∧ strContains (df.cols.get ⟨i, hi⟩) "Rate" = true) ∧
        start_row + 2 ≤ p.1.1 ∧ p.1.1 ≤ start_row + 1 + df.rows.length)
       ∨ p ∈ ws.numberFormats) := by
  have hL : (dataframe_to_rows df).length = df.rows.length + 1 := by
    simp [dataframe_to_rows]
  simp only [append_df_as_table]
  rw [mem_formatRateCols]
  simp only [foldl_appendRow_numberFormats, setCell_numberFormats]
  constructor
  · rintro (⟨q, hq, hcont, rr, hrr, hp⟩ | hmem)
    · rcases (mem_enumerate1 df.cols q).mp hq with ⟨i, hi, hqe⟩
      subst hqe
      rw [contains_filter_rate _ _ (List.get_mem df.cols i hi)] at hcont
      subst hp
      rw [List.mem_range'_1] at hrr
      obtain ⟨h1, h2⟩ := hrr
      refine Or.inl ⟨rfl, ⟨i, hi, rfl, hcont⟩, ?_, ?_⟩
      · show start_row + 2 ≤ rr
        omega
      · show rr ≤ start_row + 1 + df.rows.length
        omega
    · exact Or.inr hmem
  · rintro (⟨hp2, ⟨i, hi, hp12, hrate⟩, hlo, hhi⟩ | hmem)
    · refine Or.inl ⟨(i + 1, df.cols.get ⟨i, hi⟩),
        (mem_enumerate1 df.cols _).mpr ⟨i, hi, rfl⟩, ?_, p.1.1, ?_, ?_⟩
      · rw [contains_filter_rate _ _ (List.get_mem df.cols i hi)]; exact hrate
      · rw [List.mem_range'_1]; omega
      · rcases p with ⟨⟨pr, pc⟩, pf⟩
        simp only at hp12 hp2
        rw [hp12, hp2]
    · exact Or.inr hmem

theorem setColWidth_cells (ws : Sheet) (c w : Nat) :
    (setColWidth ws c w).cells = ws.cells := rfl

theorem colMaxLength_setColWidth (ws : Sheet) (c w c2 : Nat) :
    colMaxLength (setColWidth ws c w) c2 = colMaxLength ws c2 := rfl

theorem getColWidth_setColWidth (ws : Sheet) (c w c2 : Nat) :
    getColWidth (setColWidth ws c w) c2
      = if c2 = c then some w else getColWidth ws c2 := by
  by_cases h : c2 = c
  · subst h
    simp [getColWidth, setColWidth]
  · simp [getColWidth, setColWidth, List.find?_cons, Ne.symm h, h]

theorem autoWidthLoop_cells (l : List Nat) (ws : Sheet) :
    (autoWidthLoop l ws).cells = ws.cells := by
  induction l generalizing ws with
  | nil => rfl
  | cons c rest ih => simp [autoWidthLoop, ih, setColWidth_cells]

theorem autoWidthLoop_name (l : List Nat) (ws : Sheet) :
    (autoWidthLoop l ws).name = ws.name := by
  induction l generalizing ws with
  | nil => rfl
  | cons c rest ih => simp [autoWidthLoop, ih, setColWidth]

theorem autoWidthLoop_tables (l : List Nat) (ws : Sheet) :
    (autoWidthLoop l ws).tables = ws.tables := by
  induction l generalizing ws with
  | nil => rfl
  | cons c rest ih => simp [autoWidthLoop, ih, setColWidth]

theorem autoWidthLoop_numberFormats (l : List Nat) (ws : Sheet) :
    (autoWidthLoop l ws).numberFormats = ws.numberFormats := by
  induction l generalizing ws with
  | nil => rfl
  | cons c rest ih => simp [autoWidthLoop, ih, setColWidth]

theorem getColWidth_autoWidthLoop_notMem (l : List Nat) (ws : Sheet) (c : Nat)
    (h : c ∉ l) :
    getColWidth (autoWidthLoop l ws) c = getColWidth ws c := by
  induction l generalizing ws with
  | nil => rfl
  | cons c0 rest ih =>
      have hne : c ≠ c0 := fun he => h (he ▸ List.mem_cons_self c0 rest)
      have hrest : c ∉ rest := fun hm => h (List.mem_cons_of_mem c0 hm)
      rw [autoWidthLoop, ih _ hrest, getColWidth_setColWidth, if_neg hne]

theorem getColWidth_autoWidthLoop_mem (l : List Nat) (ws : Sheet) (c : Nat)
    (hnd : l.Nodup) (hm : c ∈ l) :
    getColWidth (autoWidthLoop l ws) c = some (colMaxLength ws c + 2) := by
  induction l generalizing ws with
  | nil => cases hm
  | cons c0 rest ih =>
      rcases List.mem_cons.mp hm with h | h
      · subst h
        have hnotin : c ∉ rest := (List.nodup_cons.mp hnd).1
        rw [autoWidthLoop, getColWidth_autoWidthLoop_notMem _ _ _ hnotin,
          getColWidth_setColWidth, if_pos rfl]
      · rw [autoWidthLoop, ih _ (List.nodup_cons.mp hnd).2 h, colMaxLength_setColWidth]

theorem autoWidthCapLoop_cells (l : List Nat) (ws : Sheet) :
    (autoWidthCapLoop l ws).cells = ws.cells := by
  induction l generalizing ws with
  | nil => rfl
  | cons c rest ih => simp [autoWidthCapLoop, ih, setColWidth_cells]

theorem autoWidthCapLoop_name (l : List Nat) (ws : Sheet) :
    (autoWidthCapLoop l ws).name = ws.name := by
  induction l generalizing ws with
  | nil => rfl
  | cons c rest ih => simp [autoWidthCapLoop, ih, setColWidth]

theorem autoWidthCapLoop_tables (l : List Nat) (ws : Sheet) :
    (autoWidthCapLoop l ws).tables = ws.tables := by
  induction l generalizing ws with
  | nil => rfl
  | cons c rest ih => simp [autoWidthCapLoop, ih, setColWidth]

theorem getColWidth_autoWidthCapLoop_notMem (l : List Nat) (ws : Sheet) (c : Nat)
    (h : c ∉ l) :
    getColWidth (autoWidthCapLoop l ws) c = getColWidth ws c := by
  induction l generalizing ws with
  | nil => rfl
  | cons c0 rest ih =>
      have hne : c ≠ c0 := fun he => h (he ▸ List.mem_cons_self c0 rest)
      have hrest : c ∉ rest := fun hm => h (List.mem_cons_of_mem c0 hm)
      rw [autoWidthCapLoop, ih _ hrest, getColWidth_setColWidth, if_neg hne]

theorem getColWidth_autoWidthCapLoop_mem (l : List Nat) (ws : Sheet) (c : Nat)
    (hnd : l.Nodup) (hm : c ∈ l) :
    getColWidth (autoWidthCapLoop l ws) c = some (min (colMaxLength ws c + 2) 50) := by
  induction l generalizing ws with
  | nil => cases hm
  | cons c0 rest ih =>
      rcases List.mem_cons.mp hm with h | h
      · subst h
        have hnotin : c ∉ rest := (List.nodup_cons.mp hnd).1
        rw [autoWidthCapLoop, getColWidth_autoWidthCapLoop_notMem _ _ _ hnotin,
          getColWidth_setColWidth, if_pos rfl]
      · rw [autoWidthCapLoop, ih _ (List.nodup_cons.mp hnd).2 h, colMaxLength_setColWidth]

theorem sheetColRange_nodup (ws : Sheet) : (sheetColRange ws).Nodup := by
  exact List.nodup_range' _ _

theorem foldl_max_zero (l : List Nat) (h : ∀ x ∈ l, x = 0) : l.foldl max 0 = 0 := by
  induction l with
  | nil => rfl
  | cons a rest ih =>
      have ha := h a (List.mem_cons_self a rest)
      rw [List.foldl_cons, ha]
      exact ih (fun x hx => h x (List.mem_cons_of_mem a hx))

theorem colMaxLength_eq_zero (ws : Sheet) (c : Nat)
    (h : ∀ r : Nat, truthy (getCell ws r c) = false) :
    colMaxLength ws c = 0 := by
  refine foldl_max_zero _ ?_
  intro x hx
  rcases List.mem_map.mp hx with ⟨r, _, rfl⟩
  simp [cellLen, h r]

/-- C5: the final auto-width pass of create_results_sheets sets every
column of the bounding box to its maximum cell string length plus 2
with no cap, while create_results_sheets_with_images caps the same
formula at 50; on a column whose longest value has 80 characters the
first yields 82 and the second exactly 50. -/
theorem C5_auto_width_rules :
    (∀ ws : Sheet, ∀ c ∈ sheetColRange ws,
        getColWidth (autoWidthLoop (sheetColRange ws) ws) c
          = some (colMaxLength ws c + 2)) ∧
    (∀ ws : Sheet, ∀ c ∈ sheetColRange ws,
        getColWidth (autoWidthCapLoop (sheetColRange ws) ws) c
          = some (min (colMaxLength ws c + 2) 50)) ∧
    ((create_results_sheets (create_introduction_sheet genLong)).sheets.map
        (fun s => (s.name, getColWidth s 1))
      = [("Introduction", some 100), ("Analysis", some 82)]) ∧
    ((create_results_sheets_with_images true (create_introduction_sheet genLong) none).sheets.map
        (fun s => (s.name, getColWidth s 1))
      = [("Introduction", some 100), ("Analysis", some 50)]) := by
  refine ⟨?_, ?_, by decide, by decide⟩
  · intro ws c hc
    exact getColWidth_autoWidthLoop_mem _ _ _ (sheetColRange_nodup ws) hc
  · intro ws c hc
    exact getColWidth_autoWidthCapLoop_mem _ _ _ (sheetColRange_nodup ws) hc

/-- Witness for C5 with the membership hypothesis discharged at a
concrete sheet and column. -/
theorem C5_auto_width_rules_witness :
    (1 ∈ sheetColRange (newSheet "S")) ∧
    getColWidth (autoWidthLoop (sheetColRange (newSheet "S")) (newSheet "S")) 1
      = some (colMaxLength (newSheet "S") 1 + 2) ∧
    getColWidth (autoWidthCapLoop (sheetColRange (newSheet "S")) (newSheet "S")) 1
      = some (min (colMaxLength (newSheet "S") 1 + 2) 50) :=
  ⟨by decide, C5_auto_width_rules.1 (newSheet "S") 1 (by decide),
    C5_auto_width_rules.2.1 (newSheet "S") 1 (by decide)⟩

/-- C10 counterexample: on a table whose column X holds the integer 0
in every data row, the auto-width pass gives column 2 the width 3
(header X contributes length 1), not the width 2 the claim
predicts. -/
theorem C10_counterexample :
    ((create_results_sheets genZeroData).sheets.map (fun s => getColWidth s 2)
        = [some 3]) ∧
    ((create_results_sheets_with_images true genZeroData none).sheets.map
        (fun s => getColWidth s 2) = [some 3]) ∧
    ¬ ((create_results_sheets genZeroData).sheets.map (fun s => getColWidth s 2)
        = [some 2]) := by
  refine ⟨by decide, by decide, by decide⟩

/-- C10 (amended): in both auto-width passes a falsy cell (None, 0,
the empty string, False) contributes length 0, so a column whose
every cell value is falsy (for example an empty-string header over
all-zero data cells) receives width 2, the same as an entirely empty
column, even though str(0) has length 1. -/
theorem C10_falsy_width :
    (∀ v : Value, truthy v = false → cellLen v = 0) ∧
    (cellLen (Value.vInt 0) = 0 ∧ (pyStr (Value.vInt 0)).length = 1) ∧
    (∀ ws : Sheet, ∀ c ∈ sheetColRange ws,
      (∀ r : Nat, truthy (getCell ws r c) = false) →
      getColWidth (autoWidthLoop (sheetColRange ws) ws) c = some 2 ∧
      getColWidth (autoWidthCapLoop (sheetColRange ws) ws) c = some 2) ∧
    ((create_results_sheets genZeroFalsy).sheets.map (fun s => getColWidth s 2)
        = [some 2]) ∧
    ((create_results_sheets genEmptySheet).sheets.map (fun s => getColWidth s 1)
        = [some 2]) := by
  refine ⟨?_, ⟨by decide, by decide⟩, ?_, by decide, by decide⟩
  · intro v hv
    simp [cellLen, hv]
  · intro ws c hc hfalsy
    have h0 := colMaxLength_eq_zero ws c hfalsy
    constructor
    · rw [getColWidth_autoWidthLoop_mem _ _ _ (sheetColRange_nodup ws) hc, h0]
    · rw [getColWidth_autoWidthCapLoop_mem _ _ _ (sheetColRange_nodup ws) hc, h0]
      decide

/-- Witness for C10 (amended) discharging the all-falsy-column
hypothesis at a concrete sheet. -/
theorem C10_falsy_width_witness :
    (1 ∈ sheetColRange (newSheet "S")) ∧
    (getColWidth (autoWidthLoop (sheetColRange (newSheet "S")) (newSheet "S")) 1 = some 2 ∧
     getColWidth (autoWidthCapLoop (sheetColRange (newSheet "S")) (newSheet "S")) 1 = some 2) :=
  ⟨by decide, C10_falsy_width.2.2.1 (newSheet "S") 1 (by decide) (fun r => rfl)⟩

/-- C7: soft degrade of image placement: when the embedding capability
is unavailable, or the file routine is given a missing path, the
routine emits exactly one warning, adds nothing to the sheet, and
returns start_row + 1. -/
theorem C7_soft_degrade (ws : Sheet) (image_path : String) (start_row : Nat)
    (start_col : ColRef) (w h : Nat) (file_exists : String → Bool) (fig : Fig)
    (hmissing : file_exists image_path = false) :
    add_image_from_file true file_exists ws image_path start_row start_col w h
      = (ws, start_row + 1, ["Warning: Image file not found: " ++ image_path]) ∧
    add_image_from_file false file_exists ws image_path start_row start_col w h
      = (ws, start_row + 1, ["Warning: Image embedding not available. Skipping image."]) ∧
    add_image_from_figure false ws fig start_row start_col w h
      = Except.ok (ws, start_row + 1,
          ["Warning: Image embedding requires matplotlib. Skipping image."]) := by
  refine ⟨?_, rfl, rfl⟩
  simp [add_image_from_file, hmissing]

/-- Witness for C7 at a concrete missing file. -/
theorem C7_soft_degrade_witness :
    ((fun _ : String => false) "plot.png" = false) ∧
    add_image_from_file true (fun _ => false) (newSheet "S") "plot.png" 5
        (ColRef.letter "A") 600 400
      = ((newSheet "S"), 5 + 1, ["Warning: Image file not found: " ++ "plot.png"]) :=
  ⟨rfl, (C7_soft_degrade (newSheet "S") "plot.png" 5 (ColRef.letter "A") 600 400
      (fun _ => false) (Fig.good 0) rfl).1⟩

/-- C8: a 1-based integer column index and the corresponding column
letter resolve to the identical anchor, for both image routines; in
particular index 3 corresponds to letter C. -/
theorem C8_col_ref_equiv :
    get_column_letter 3 = "C" ∧
    (∀ (m : Bool) (ws : Sheet) (fig : Fig) (r k w h : Nat),
      add_image_from_figure m ws fig r (ColRef.idx k) w h
        = add_image_from_figure m ws fig r (ColRef.letter (get_column_letter k)) w h) ∧
    (∀ (m : Bool) (fe : String → Bool) (ws : Sheet) (path : String) (r k w h : Nat),
      add_image_from_file m fe ws path r (ColRef.idx k) w h
        = add_image_from_file m fe ws path r (ColRef.letter (get_column_letter k)) w h) := by
  refine ⟨by decide, ?_, ?_⟩
  · intro m ws fig r k w h
    cases m with
    | false => rfl
    | true => cases fig <;> rfl
  · intro m fe ws path r k w h
    cases m with
    | false => rfl
    | true =>
        by_cases hf : fe path = true
        · simp [add_image_from_file, hf]
        · simp [add_image_from_file, hf]

theorem introLinesLoop_name (l : List String) (ws : Sheet) :
    (introLinesLoop l ws).name = ws.name := by
  induction l generalizing ws with
  | nil => rfl
  | cons s rest ih => simp [introLinesLoop, ih, appendRow_name]

theorem introLinesLoop_tables (l : List String) (ws : Sheet) :
    (introLinesLoop l ws).tables = ws.tables := by
  induction l generalizing ws with
  | nil => rfl
  | cons s rest ih => simp [introLinesLoop, ih, appendRow_tables]

theorem create_introduction_sheet_sheets (g : ExcelReportGenerator) :
    ∃ ws : Sheet, (create_introduction_sheet g).sheets = ws :: g.sheets ∧
      ws.name = "Introduction" ∧ ws.tables = [] := by
  refine ⟨_, rfl, ?_, ?_⟩
  · simp [setColWidth, introLinesLoop_name, appendRow_name, newSheet]
  · simp [setColWidth, introLinesLoop_tables, appendRow_tables, newSheet]

theorem create_introduction_sheet_results (g : ExcelReportGenerator) :
    (create_introduction_sheet g).results = g.results := rfl

theorem create_introduction_sheet_counter (g : ExcelReportGenerator) :
    (create_introduction_sheet g).global_table_counter = g.global_table_counter := rfl

theorem placeTablesLoop_name (l : List (String × DF)) (ws : Sheet) (cur cnt : Nat) :
    (placeTablesLoop l ws cur cnt).1.name = ws.name := by
  induction l generalizing ws cur cnt with
  | nil => rfl
  | cons q rest ih =>
      obtain ⟨title, df⟩ := q
      simp only [placeTablesLoop]
      rw [ih, append_df_as_table_name]

theorem placeTablesLoop_counter (l : List (String × DF)) (ws : Sheet) (cur cnt : Nat) :
    (placeTablesLoop l ws cur cnt).2 = cnt + l.length := by
  induction l generalizing ws cur cnt with
  | nil => simp [placeTablesLoop]
  | cons q rest ih =>
      obtain ⟨title, df⟩ := q
      simp only [placeTablesLoop]
      rw [ih, append_df_as_table_counter]
      simp only [List.length_cons]
      omega

theorem placeTablesLoop_tables_names (l : List (String × DF)) (ws : Sheet) (cur cnt : Nat) :
    ((placeTablesLoop l ws cur cnt).1.tables).map XTable.displayName
      = ws.tables.map XTable.displayName ++ (List.range' cnt l.length).map tableName := by
  induction l generalizing ws cur cnt with
  | nil => simp [placeTablesLoop]
  | cons q rest ih =>
      obtain ⟨title, df⟩ := q
      simp only [placeTablesLoop]
      rw [ih, append_df_as_table_counter, append_df_as_table_tables_names]
      rw [List.length_cons, List.range'_succ]
      simp

theorem resultsSheetsLoop_sheet_names (l : List (String × List (String × DF)))
    (g : ExcelReportGenerator) :
    (resultsSheetsLoop l g).sheets.map Sheet.name
      = g.sheets.map Sheet.name ++ l.map Prod.fst := by
  induction l generalizing g with
  | nil => simp [resultsSheetsLoop]
  | cons q rest ih =>
      obtain ⟨sheet_name, queries⟩ := q
      simp only [resultsSheetsLoop]
      rw [ih]
      simp [autoWidthLoop_name, placeTablesLoop_name, newSheet]

theorem resultsSheetsLoop_counter (l : List (String × List (String × DF)))
    (g : ExcelReportGenerator) :
    (resultsSheetsLoop l g).global_table_counter
      = g.global_table_counter + totalTables l := by
  induction l generalizing g with
  | nil => simp [resultsSheetsLoop, totalTables]
  | cons q rest ih =>
      obtain ⟨sheet_name, queries⟩ := q
      simp only [resultsSheetsLoop]
      rw [ih, placeTablesLoop_counter]
      simp only [totalTables, List.map_cons, List.sum_cons]
      omega

theorem resultsSheetsLoop_sheets_prefix (l : List (String × List (String × DF)))
    (g : ExcelReportGenerator) :
    ∃ post, (resultsSheetsLoop l g).sheets = g.sheets ++ post := by
  induction l generalizing g with
  | nil => exact ⟨[], by simp [resultsSheetsLoop]⟩
  | cons q rest ih =>
      obtain ⟨sheet_name, queries⟩ := q
      simp only [resultsSheetsLoop]
      rcases ih _ with ⟨post, hpost⟩
      refine ⟨(autoWidthLoop
          (sheetColRange (placeTablesLoop queries (newSheet sheet_name) 1
            g.global_table_counter).1)
          (placeTablesLoop queries (newSheet sheet_name) 1
            g.global_table_counter).1) :: post, ?_⟩
      rw [hpost]
      simp

theorem docTableNames_resultsSheetsLoop (l : List (String × List (String × DF)))
    (g : ExcelReportGenerator) :
    docTableNames (resultsSheetsLoop l g)
      = docTableNames g
        ++ (List.range' g.global_table_counter (totalTables l)).map tableName := by
  induction l generalizing g with
  | nil => simp [resultsSheetsLoop, totalTables]
  | cons q rest ih =>
      obtain ⟨sheet_name, queries⟩ := q
      simp only [resultsSheetsLoop]
      rw [ih]
      simp only [docTableNames, List.map_append, List.flatten_append, List.map_cons,
        List.map_nil, List.flatten_cons, List.flatten_nil, List.append_nil,
        placeTablesLoop_counter, autoWidthLoop_tables, placeTablesLoop_tables_names,
        newSheet, List.nil_append]
      rw [List.append_assoc, ← List.map_append, List.range'_append_1]
      have htot : totalTables ((sheet_name, queries) :: rest)
          = queries.length + totalTables rest := by
        simp [totalTables]
      rw [htot, Nat.add_comm queries.length (totalTables rest)]

theorem truthyDict_none : truthyDict (none : Option (List (String × ImgFunc))) = false := rfl

theorem generate_workbook_none_sheets (m : Bool) (g : ExcelReportGenerator)
    (output_path : String) :
    (generate_workbook m g output_path none).sheets
      = (create_results_sheets (create_introduction_sheet g)).sheets := by
  simp [generate_workbook, truthyDict_none]

/-- C1: for well-formed inputs, generate with no image providers
produces exactly the sheet Introduction followed by the data-source
keys in input order; the default blank sheet of the fresh workbook
does not appear. -/
theorem C1_sheet_order (m : Bool) (results : List (String × List (String × DF)))
    (intro_text : List String) (output_path : String)
    (h1 : "Introduction" ∉ results.map Prod.fst)
    (h2 : (results.map Prod.fst).Nodup)
    (h3 : ∀ s ∈ results.map Prod.fst, s ≠ "") :
    (generate_workbook m (initGenerator results intro_text) output_path none).sheets.map
        Sheet.name
      = "Introduction" :: results.map Prod.fst := by
  rw [generate_workbook_none_sheets]
  rw [create_results_sheets, resultsSheetsLoop_sheet_names]
  rcases create_introduction_sheet_sheets (initGenerator results intro_text)
    with ⟨ws, hsheets, hname, htables⟩
  rw [create_introduction_sheet_results, hsheets]
  simp [initGenerator, hname]

/-- Witness for C1 at a concrete well-formed input. -/
theorem C1_sheet_order_witness :
    ("Introduction" ∉ ([("Analysis", [("T", dfLong)])].map Prod.fst)) ∧
    (([("Analysis", [("T", dfLong)])].map Prod.fst).Nodup) ∧
    (∀ s ∈ [("Analysis", [("T", dfLong)])].map Prod.fst, s ≠ "") ∧
    (generate_workbook true (initGenerator [("Analysis", [("T", dfLong)])] ["i"])
        "out.xlsx" none).sheets.map Sheet.name
      = "Introduction" :: [("Analysis", [("T", dfLong)])].map Prod.fst :=
  ⟨by decide, by decide, by decide,
    C1_sheet_order true [("Analysis", [("T", dfLong)])] ["i"] "out.xlsx"
      (by decide) (by decide) (by decide)⟩

theorem add_image_from_figure_ok_fields (m : Bool) (ws : Sheet) (fig : Fig) (r : Nat)
    (sc : ColRef) (w h : Nat) (t : Sheet × Nat × List String)
    (heq : add_image_from_figure m ws fig r sc w h = Except.ok t) :
    t.1.tables = ws.tables ∧ t.1.cells = ws.cells ∧ t.1.numberFormats = ws.numberFormats
      ∧ t.1.name = ws.name ∧ t.1.colWidths = ws.colWidths := by
  cases m with
  | false =>
      simp only [add_image_from_figure, Bool.false_eq_true, if_false,
        Except.ok.injEq] at heq
      rw [← heq]
      exact ⟨rfl, rfl, rfl, rfl, rfl⟩
  | true =>
      cases fig with
      | bad msg => simp [add_image_from_figure] at heq
      | good id =>
          simp only [add_image_from_figure, if_true, Except.ok.injEq] at heq
          rw [← heq]
          exact ⟨rfl, rfl, rfl, rfl, rfl⟩

theorem placeFigures_fields (m : Bool) (figs : List (Option Fig)) (ws : Sheet) (cur : Nat) :
    (placeFigures m figs ws cur).ws.tables = ws.tables
      ∧ (placeFigures m figs ws cur).ws.cells = ws.cells
      ∧ (placeFigures m figs ws cur).ws.numberFormats = ws.numberFormats
      ∧ (placeFigures m figs ws cur).ws.name = ws.name
      ∧ (placeFigures m figs ws cur).ws.colWidths = ws.colWidths := by
  induction figs generalizing ws cur with
  | nil => exact ⟨rfl, rfl, rfl, rfl, rfl⟩
  | cons f rest ih =>
      cases f with
      | none => simpa [placeFigures] using ih ws cur
      | some fig =>
          simp only [placeFigures]
          cases hres : add_image_from_figure m ws fig cur (ColRef.letter "A") 600 400 with
          | error e => exact ⟨rfl, rfl, rfl, rfl, rfl⟩
          | ok t =>
              obtain ⟨ws2, next, warns⟩ := t
              have hf := add_image_from_figure_ok_fields m ws fig cur
                (ColRef.letter "A") 600 400 (ws2, next, warns) hres
              have hrest := ih ws2 (next + 1)
              simp only at hf
              exact ⟨by rw [hrest.1, hf.1], by rw [hrest.2.1, hf.2.1],
                by rw [hrest.2.2.1, hf.2.2.1], by rw [hrest.2.2.2.1, hf.2.2.2.1],
                by rw [hrest.2.2.2.2, hf.2.2.2.2]⟩

theorem tryAddImages_fields (m : Bool) (fns : Option (List (String × ImgFunc)))
    (sn tt : String) (df : DF) (ws : Sheet) (cur : Nat) :
    (tryAddImages m fns sn tt df ws cur).1.tables = ws.tables
      ∧ (tryAddImages m fns sn tt df ws cur).1.cells = ws.cells
      ∧ (tryAddImages m fns sn tt df ws cur).1.numberFormats = ws.numberFormats
      ∧ (tryAddImages m fns sn tt df ws cur).1.name = ws.name
      ∧ (tryAddImages m fns sn tt df ws cur).1.colWidths = ws.colWidths := by
  cases fns with
  | none => exact ⟨rfl, rfl, rfl, rfl, rfl⟩
  | some l =>
      by_cases he : l.isEmpty = true
      · simp [tryAddImages, he]
      · cases hlk : List.lookup sn l with
        | none => simp [tryAddImages, he, hlk]
        | some image_func =>
            cases hfr : image_func df tt with
            | error e => simp [tryAddImages, he, hlk, hfr]
            | ok figresult =>
                have hp := placeFigures_fields m (normalizeFigures figresult) ws cur
                cases hraised : (placeFigures m (normalizeFigures figresult) ws cur).raised with
                | some e =>
                    simp [tryAddImages, he, hlk, hfr, hraised, hp.1, hp.2.1,
                      hp.2.2.1, hp.2.2.2.1, hp.2.2.2.2]
                | none =>
                    simp [tryAddImages, he, hlk, hfr, hraised, hp.1, hp.2.1,
                      hp.2.2.1, hp.2.2.2.1, hp.2.2.2.2]

theorem tryAddImages_provider_error (m : Bool) (fns : List (String × ImgFunc))
    (sn tt : String) (df : DF) (ws : Sheet) (cur : Nat) (f : ImgFunc) (e : String)
    (hlk : List.lookup sn fns = some f) (hfr : f df tt = Except.error e) :
    tryAddImages m (some fns) sn tt df ws cur
      = (ws, cur, [warnImagesFailed sn tt e]) := by
  cases fns with
  | nil => simp at hlk
  | cons q rest =>
      have he : ((q :: rest).isEmpty = true) = False := by simp
      simp [tryAddImages, he, hlk, hfr]

theorem placeTablesWithImagesLoop_name (m : Bool)
    (fns : Option (List (String × ImgFunc))) (sn : String) (l : List (String × DF))
    (ws : Sheet) (cur cnt : Nat) (log : List String) :
    (placeTablesWithImagesLoop m fns sn l ws cur cnt log).1.name = ws.name := by
  induction l generalizing ws cur cnt log with
  | nil => rfl
  | cons q rest ih =>
      obtain ⟨title, df⟩ := q
      simp only [placeTablesWithImagesLoop]
      rw [ih, (tryAddImages_fields m fns sn title df _ _).2.2.2.1,
        append_df_as_table_name]

theorem placeTablesWithImagesLoop_counter (m : Bool)
    (fns : Option (List (String × ImgFunc))) (sn : String) (l : List (String × DF))
    (ws : Sheet) (cur cnt : Nat) (log : List String) :
    (placeTablesWithImagesLoop m fns sn l ws cur cnt log).2.1 = cnt + l.length := by
  induction l generalizing ws cur cnt log with
  | nil => simp [placeTablesWithImagesLoop]
  | cons q rest ih =>
      obtain ⟨title, df⟩ := q
      simp only [placeTablesWithImagesLoop]
      rw [ih, append_df_as_table_counter]
      simp only [List.length_cons]
      omega

theorem placeTablesWithImagesLoop_tables_names (m : Bool)
    (fns : Option (List (String × ImgFunc))) (sn : String) (l : List (String × DF))
    (ws : Sheet) (cur cnt : Nat) (log : List String) :
    ((placeTablesWithImagesLoop m fns sn l ws cur cnt log).1.tables).map XTable.displayName
      = ws.tables.map XTable.displayName ++ (List.range' cnt l.length).map tableName := by
  induction l generalizing ws cur cnt log with
  | nil => simp [placeTablesWithImagesLoop]
  | cons q rest ih =>
      obtain ⟨title, df⟩ := q
      simp only [placeTablesWithImagesLoop]
      rw [ih, (tryAddImages_fields m fns sn title df _ _).1,
        append_df_as_table_counter, append_df_as_table_tables_names]
      rw [List.length_cons, List.range'_succ]
      simp

theorem resultsSheetsWithImagesLoop_sheet_names (m : Bool)
    (fns : Option (List (String × ImgFunc))) (l : List (String × List (String × DF)))
    (g : ExcelReportGenerator) :
    (resultsSheetsWithImagesLoop m fns l g).sheets.map Sheet.name
      = g.sheets.map Sheet.name ++ l.map Prod.fst := by
  induction l generalizing g with
  | nil => simp [resultsSheetsWithImagesLoop]
  | cons q rest ih =>
      obtain ⟨sheet_name, queries⟩ := q
      simp only [resultsSheetsWithImagesLoop]
      rw [ih]
      simp [autoWidthCapLoop_name, placeTablesWithImagesLoop_name, newSheet]

theorem resultsSheetsWithImagesLoop_counter (m : Bool)
    (fns : Option (List (String × ImgFunc))) (l : List (String × List (String × DF)))
    (g : ExcelReportGenerator) :
    (resultsSheetsWithImagesLoop m fns l g).global_table_counter
      = g.global_table_counter + totalTables l := by
  induction l generalizing g with
  | nil => simp [resultsSheetsWithImagesLoop, totalTables]
  | cons q rest ih =>
      obtain ⟨sheet_name, queries⟩ := q
      simp only [resultsSheetsWithImagesLoop]
      rw [ih, placeTablesWithImagesLoop_counter]
      simp only [totalTables, List.map_cons, List.sum_cons]
      omega

theorem resultsSheetsWithImagesLoop_sheets_prefix (m : Bool)
    (fns : Option (List (String × ImgFunc))) (l : List (String × List (String × DF)))
    (g : ExcelReportGenerator) :
    ∃ post, (resultsSheetsWithImagesLoop m fns l g).sheets = g.sheets ++ post := by
  induction l generalizing g with
  | nil => exact ⟨[], by simp [resultsSheetsWithImagesLoop]⟩
  | cons q rest ih =>
      obtain ⟨sheet_name, queries⟩ := q
      simp only [resultsSheetsWithImagesLoop]
      rcases ih _ with ⟨post, hpost⟩
      refine ⟨(autoWidthCapLoop
          (sheetColRange (placeTablesWithImagesLoop m fns sheet_name queries
            (newSheet sheet_name) 1 g.global_table_counter []).1)
          (placeTablesWithImagesLoop m fns sheet_name queries
            (newSheet sheet_name) 1 g.global_table_counter []).1) :: post, ?_⟩
      rw [hpost]
      simp

theorem docTableNames_resultsSheetsWithImagesLoop (m : Bool)
    (fns : Option (List (String × ImgFunc))) (l : List (String × List (String × DF)))
    (g : ExcelReportGenerator) :
    docTableNames (resultsSheetsWithImagesLoop m fns l g)
      = docTableNames g
        ++ (List.range' g.global_table_counter (totalTables l)).map tableName := by
  induction l generalizing g with
  | nil => simp [resultsSheetsWithImagesLoop, totalTables]
  | cons q rest ih =>
      obtain ⟨sheet_name, queries⟩ := q
      simp only [resultsSheetsWithImagesLoop]
      rw [ih]
      simp only [docTableNames, List.map_append, List.flatten_append, List.map_cons,
        List.map_nil, List.flatten_cons, List.flatten_nil, List.append_nil,
        placeTablesWithImagesLoop_counter, autoWidthCapLoop_tables,
        placeTablesWithImagesLoop_tables_names, newSheet, List.nil_append]
      rw [List.append_assoc, ← List.map_append, List.range'_append_1]
      have htot : totalTables ((sheet_name, queries) :: rest)
          = queries.length + totalTables rest := by
        simp [totalTables]
      rw [htot, Nat.add_comm queries.length (totalTables rest)]

theorem generate_workbook_sheets_true (m : Bool) (g : ExcelReportGenerator)
    (p : String) (fns : Option (List (String × ImgFunc)))
    (ht : truthyDict fns = true) :
    (generate_workbook m g p fns).sheets
      = (create_results_sheets_with_images m (create_introduction_sheet g) fns).sheets := by
  simp [generate_workbook, ht]

theorem generate_workbook_sheets_false (m : Bool) (g : ExcelReportGenerator)
    (p : String) (fns : Option (List (String × ImgFunc)))
    (ht : truthyDict fns = false) :
    (generate_workbook m g p fns).sheets
      = (create_results_sheets (create_introduction_sheet g)).sheets := by
  simp [generate_workbook, ht]

theorem docTableNames_def2 (g : ExcelReportGenerator) :
    docTableNames g = (g.sheets.map (fun s => s.tables.map XTable.displayName)).flatten := rfl

/-- C2: over a whole run of generate_workbook, the table display names
in placement order are exactly Table1, Table2, ... up to the total
number of tables, and the introduction sheet (the first sheet)
registers no tables. -/
theorem C2_table_names (m : Bool) (results : List (String × List (String × DF)))
    (intro_text : List String) (output_path : String)
    (image_functions : Option (List (String × ImgFunc))) :
    docTableNames (generate_workbook m (initGenerator results intro_text) output_path
        image_functions)
      = (List.range' 1 (totalTables results)).map tableName ∧
    ((generate_workbook m (initGenerator results intro_text) output_path
        image_functions).sheets.head?.map Sheet.tables) = some [] := by
  rcases create_introduction_sheet_sheets (initGenerator results intro_text)
    with ⟨ws, hsheets, hname, htables⟩
  have hg1cnt : (create_introduction_sheet
      (initGenerator results intro_text)).global_table_counter = 1 := rfl
  have hg1res : (create_introduction_sheet (initGenerator results intro_text)).results
      = results := rfl
  have hg1doc : docTableNames (create_introduction_sheet (initGenerator results intro_text))
      = [] := by
    rw [docTableNames_def2, hsheets]
    simp [initGenerator, htables]
  constructor
  · by_cases ht : truthyDict image_functions = true
    · rw [docTableNames_def2, generate_workbook_sheets_true _ _ _ _ ht,
        ← docTableNames_def2, create_results_sheets_with_images,
        docTableNames_resultsSheetsWithImagesLoop, hg1doc, hg1cnt, hg1res]
      simp
    · have ht2 : truthyDict image_functions = false := by
        revert ht; cases truthyDict image_functions <;> simp
      rw [docTableNames_def2, generate_workbook_sheets_false _ _ _ _ ht2,
        ← docTableNames_def2, create_results_sheets,
        docTableNames_resultsSheetsLoop, hg1doc, hg1cnt, hg1res]
      simp
  · by_cases ht : truthyDict image_functions = true
    · rw [generate_workbook_sheets_true _ _ _ _ ht, create_results_sheets_with_images]
      rcases resultsSheetsWithImagesLoop_sheets_prefix m image_functions
        (create_introduction_sheet (initGenerator results intro_text)).results
        (create_introduction_sheet (initGenerator results intro_text))
        with ⟨post, hp⟩
      rw [hp, hsheets]
      simp [initGenerator, htables]
    · have ht2 : truthyDict image_functions = false := by
        revert ht; cases truthyDict image_functions <;> simp
      rw [generate_workbook_sheets_false _ _ _ _ ht2, create_results_sheets]
      rcases resultsSheetsLoop_sheets_prefix
        (create_introduction_sheet (initGenerator results intro_text)).results
        (create_introduction_sheet (initGenerator results intro_text))
        with ⟨post, hp⟩
      rw [hp, hsheets]
      simp [initGenerator, htables]

/-- C6: a provider callback or image placement failure for one
(sheet, title) pair is caught at that granularity: the guarded image
block never changes cells, tables or number formats; a raising
provider leaves the sheet untouched and logs one warning naming the
sheet and the title; every table of every sheet is still placed with
its sequential name for any providers, so no exception escapes.
Concretely, a provider raising on both tables of sheet Analysis logs
both warnings while the tables of Analysis and of the later sheet
Summary are all placed and the already-written rows stay intact. -/
theorem C6_provider_failure_isolated :
    (∀ (m : Bool) (results : List (String × List (String × DF)))
        (intro_text : List String) (fns : Option (List (String × ImgFunc))),
      docTableNames (create_results_sheets_with_images m
          (initGenerator results intro_text) fns)
        = (List.range' 1 (totalTables results)).map tableName) ∧
    (∀ (m : Bool) (fns : Option (List (String × ImgFunc))) (sn tt : String) (df : DF)
        (ws : Sheet) (cur : Nat),
      (tryAddImages m fns sn tt df ws cur).1.cells = ws.cells ∧
      (tryAddImages m fns sn tt df ws cur).1.tables = ws.tables ∧
      (tryAddImages m fns sn tt df ws cur).1.numberFormats = ws.numberFormats) ∧
    (∀ (m : Bool) (fns : List (String × ImgFunc)) (sn tt : String) (df : DF)
        (ws : Sheet) (cur : Nat) (f : ImgFunc) (e : String),
      List.lookup sn fns = some f → f df tt = Except.error e →
      tryAddImages m (some fns) sn tt df ws cur
        = (ws, cur, [warnImagesFailed sn tt e])) ∧
    ((create_results_sheets_with_images true genTwoSheets
        (some [("Analysis", badProvider)])).log
      = [warnImagesFailed "Analysis" "Category Data" "boom",
         warnImagesFailed "Analysis" "Sales Data" "boom"]) ∧
    ((create_results_sheets_with_images true genTwoSheets
        (some [("Analysis", badProvider)])).sheets.map
          (fun s => (s.name, s.tables.map XTable.displayName))
      = [("Analysis", ["Table1", "Table2"]), ("Summary", ["Table3"])]) ∧
    ((create_results_sheets_with_images true genTwoSheets
        (some [("Analysis", badProvider)])).sheets.head?.map
          (fun s => (getCell s 1 1, getCell s 2 1, getCell s 2 2))
      = some (Value.vStr "Category Data", Value.vStr "A", Value.vStr "X")) ∧
    ((create_results_sheets_with_images true genTwoSheets
        (some [("Analysis", badFigProvider)])).log
      = [warnImagesFailed "Analysis" "Category Data" "save failed",
         warnImagesFailed "Analysis" "Sales Data" "save failed"]) := by
  refine ⟨?_, ?_, ?_, by decide, by decide, by decide, by decide⟩
  · intro m results intro_text fns
    rw [create_results_sheets_with_images, docTableNames_resultsSheetsWithImagesLoop]
    simp [docTableNames, initGenerator]
  · intro m fns sn tt df ws cur
    have h := tryAddImages_fields m fns sn tt df ws cur
    exact ⟨h.2.1, h.1, h.2.2.1⟩
  · intro m fns sn tt df ws cur f e hlk hfr
    exact tryAddImages_provider_error m fns sn tt df ws cur f e hlk hfr

/-- Witness for C6 discharging the raising-provider hypotheses at a
concrete provider and table. -/
theorem C6_provider_failure_isolated_witness :
    (List.lookup "Analysis" [("Analysis", badProvider)] = some badProvider) ∧
    (badProvider dfLong "T" = Except.error "boom") ∧
    tryAddImages true (some [("Analysis", badProvider)]) "Analysis" "T" dfLong
        (newSheet "S") 3
      = ((newSheet "S"), 3, [warnImagesFailed "Analysis" "T" "boom"]) :=
  ⟨rfl, rfl, C6_provider_failure_isolated.2.2.1 true [("Analysis", badProvider)]
      "Analysis" "T" dfLong (newSheet "S") 3 badProvider "boom" rfl rfl⟩

/-- C9 counterexample: an image-provider mapping that is given but
empty is falsy in Python, so generate_workbook takes the no-image
path: the result equals the run with no providers at all and the long
column gets the uncapped width 82, although the claim requires the
capped width 50 whenever a mapping is given. -/
theorem C9_counterexample :
    truthyDict (some ([] : List (String × ImgFunc))) = false ∧
    generate_workbook true genLong "out.xlsx" (some [])
      = generate_workbook true genLong "out.xlsx" none ∧
    ((generate_workbook true genLong "out.xlsx" (some [])).sheets.map
        (fun s => (s.name, getColWidth s 1))
      = [("Introduction", some 100), ("Analysis", some 82)]) ∧
    ¬ ((generate_workbook true genLong "out.xlsx" (some [])).sheets.map
        (fun s => (s.name, getColWidth s 1))
      = [("Introduction", some 100), ("Analysis", some 50)]) :=
  ⟨rfl, by decide, by decide, by decide⟩

/-- C9 (amended): generate_workbook builds the introduction sheet
first and then dispatches on the Python truthiness of the providers
argument: the with-images builder (capped auto-width) runs exactly
when a non-empty provider mapping is given, and the plain builder
(uncapped auto-width) otherwise, including when an empty mapping is
given; the confirmation message is logged last. -/
theorem C9_generate_dispatch (m : Bool) (g : ExcelReportGenerator)
    (output_path : String) (image_functions : Option (List (String × ImgFunc))) :
    (truthyDict image_functions = true ↔
      ∃ l, image_functions = some l ∧ l ≠ []) ∧
    (truthyDict image_functions = true →
      (generate_workbook m g output_path image_functions).sheets
        = (create_results_sheets_with_images m (create_introduction_sheet g)
            image_functions).sheets) ∧
    (truthyDict image_functions = false →
      (generate_workbook m g output_path image_functions).sheets
        = (create_results_sheets (create_introduction_sheet g)).sheets) ∧
    ((generate_workbook m g output_path image_functions).log.getLast?
      = some ("Workbook successfully saved to " ++ output_path)) := by
  refine ⟨?_, generate_workbook_sheets_true m g output_path image_functions,
    generate_workbook_sheets_false m g output_path image_functions, ?_⟩
  · cases image_functions with
    | none => simp [truthyDict]
    | some l =>
        cases l with
        | nil => simp [truthyDict]
        | cons a rest => simp [truthyDict]
  · by_cases ht : truthyDict image_functions = true
    · simp [generate_workbook, ht, List.getLast?_concat]
    · have ht2 : truthyDict image_functions = false := by
        revert ht; cases truthyDict image_functions <;> simp
      simp [generate_workbook, ht2, List.getLast?_concat]

/-- Witness for C9 (amended) discharging both dispatch hypotheses at
concrete provider arguments. -/
theorem C9_generate_dispatch_witness :
    truthyDict (some [("Analysis", badProvider)]) = true ∧
    (generate_workbook true genLong "o" (some [("Analysis", badProvider)])).sheets
      = (create_results_sheets_with_images true (create_introduction_sheet genLong)
          (some [("Analysis", badProvider)])).sheets ∧
    truthyDict (none : Option (List (String × ImgFunc))) = false ∧
    (generate_workbook true genLong "o" none).sheets
      = (create_results_sheets (create_introduction_sheet genLong)).sheets :=
  ⟨rfl, (C9_generate_dispatch true genLong "o" (some [("Analysis", badProvider)])).2.1 rfl,
    rfl, (C9_generate_dispatch true genLong "o" none).2.2.1 rfl⟩
